import Mathlib

/-!
Shallow embedding of the client-side Wayland backend
(`wayland-backend/src/sys/client_impl/mod.rs`).

The code under verification wraps `libwayland`: every FFI call
(`wl_display_flush`, `wl_display_read_events`, `wl_proxy_get_version`, ...)
is modelled either as a field of an explicit heap (`WlHeap`) or, for calls
whose outcome depends on the external world (socket readiness, server
behaviour), as an explicit input parameter of the embedded function.
Machine pointers (`*mut wl_proxy`, `Arc<AtomicBool>` cells, `Arc<dyn
ObjectData>` values) are modelled as natural-number identities; `0` is the
null pointer.  Rust panics are modelled by dedicated result constructors
carrying a `PanicReason`, and dereferences of invalid pointers (undefined
behaviour in the original) by a `ub`/`none` result.
-/

set_option autoImplicit false

namespace WaylandSysClient

/-- Kind of a `std::io::Error` (only the distinctions the code inspects). -/
inductive IoErrorKind
  | wouldBlock
  | brokenPipe
  | connectionReset
  | otherKind (n : Nat)
deriving DecidableEq

/-- A `std::io::Error`: its kind together with the optional raw OS errno. -/
structure IoError where
  kind : IoErrorKind
  rawOsError : Option Int
deriving DecidableEq

/-- `protocol::ProtocolError`. -/
structure ProtocolError where
  code : Nat
  object_id : Nat
  object_interface : String
  message : String
deriving DecidableEq

/-- `types::client::WaylandError`. -/
inductive WaylandError
  | Protocol (e : ProtocolError)
  | Io (e : IoError)
deriving DecidableEq

/-- `nix::errno::Errno::EPROTO as i32` on Linux. -/
def EPROTO : Int := 71

/-- `types::client::InvalidId`. -/
structure InvalidId
deriving DecidableEq

/-- `protocol::AllowNull`. -/
inductive AllowNull
  | yes
  | no
deriving DecidableEq

/-- `protocol::ArgumentType` as used by this backend version. -/
inductive ArgumentType
  | Int
  | Uint
  | Fixed
  | Str (n : AllowNull)
  | Object (n : AllowNull)
  | NewId (n : AllowNull)
  | Array (n : AllowNull)
  | Fd
deriving DecidableEq

/-- `protocol::MessageDesc`: one request or event signature.  Interfaces are
referred to through their pointer identity, modelled as a `Nat` index. -/
structure MessageDesc where
  name : String
  signature : List ArgumentType
  is_destructor : Bool
  child_interface : Option Nat
  arg_interfaces : List Nat
deriving DecidableEq

/-- `protocol::Interface`. -/
structure Interface where
  name : String
  version : Nat
  requests : List MessageDesc
  events : List MessageDesc
deriving DecidableEq

/-- The process-wide table of static interface descriptors: a `&'static
Interface` reference is a `Nat` index resolved through this registry. -/
abbrev Registry := Nat → Interface

/-- Index reserved for `protocol::ANONYMOUS_INTERFACE`. -/
def anonymousInterface : Nat := 0

/-- Modelled from the spec: `protocol::same_interface` lives in
`wayland-backend/src/protocol.rs`, which is not among the excerpted sources;
per the spec interfaces are "Looked up by reference equality or name". -/
def same_interface (reg : Registry) (a b : Nat) : Bool :=
  decide (a = b) || decide ((reg a).name = (reg b).name)

/-- `InnerObjectId`: numeric protocol id, raw proxy pointer, the optional
shared liveness flag (the identity of the `Arc<AtomicBool>` cell), and the
static interface reference. -/
structure InnerObjectId where
  id : Nat
  ptr : Nat
  alive : Option Nat
  interface : Nat
deriving DecidableEq

/-- `impl PartialEq for InnerObjectId`: managed ids compare by
`Arc::ptr_eq` of their liveness cells; unmanaged ids compare by pointer,
numeric id and interface; a managed and an unmanaged id never compare equal. -/
def InnerObjectId.eq (reg : Registry) (x y : InnerObjectId) : Bool :=
  match x.alive, y.alive with
  | some a, some b => decide (a = b)
  | none, none =>
      decide (x.ptr = y.ptr) && decide (x.id = y.id) &&
        same_interface reg x.interface y.interface
  | _, _ => false

/-- `ProxyUserData`: liveness cell identity, object-data identity, interface. -/
structure ProxyUserData where
  alive : Nat
  data : Nat
  interface : Nat
deriving DecidableEq

/-- Identity of the placeholder `UninitObjectData` value. -/
def UninitObjectData : Nat := 0

/-- Identity of the `DumbObjectData` value returned for the display. -/
def DumbObjectData : Nat := 1

/-- The slice of `libwayland` state the code manipulates through FFI calls:
liveness cells (`Arc<AtomicBool>` allocations), per-proxy user data, version
and id queries, the listener tag distinguishing rust-managed proxies, fresh
pointer/id allocation, the log of `destroyed()` callbacks and
`wl_proxy_destroy` calls, the read-intent flag of the display, and the data
reported by `wl_display_get_protocol_error`. -/
structure WlHeap where
  aliveStore : Nat → Bool
  nextAlive : Nat
  udata : Nat → Option ProxyUserData
  proxyVersion : Nat → Nat
  proxyId : Nat → Nat
  rustManaged : Nat → Bool
  nextPtr : Nat
  nextId : Nat
  destroyedLog : List (Nat × InnerObjectId)
  destroyedProxies : List Nat
  readPrepared : Bool
  protoErrCode : Nat
  protoErrObjectId : Nat
  protoErrInterface : String

/-- `ConnectionState`. -/
structure ConnectionState where
  display : Nat
  evq : Nat
  display_id : InnerObjectId
  last_error : Option WaylandError
  known_proxies : List Nat

/-- `InnerBackend`: the connection state together with the libwayland heap it
acts on. -/
structure InnerBackend where
  state : ConnectionState
  heap : WlHeap

/-- The liveness read `id.alive.as_ref().map(load).unwrap_or(true)` used by
`send_request` and `info`. -/
def aliveDefaultTrue (h : WlHeap) (x : InnerObjectId) : Bool :=
  match x.alive with
  | some a => h.aliveStore a
  | none => true

/-- The liveness read `id.alive.as_ref().map(load).unwrap_or(false)` used by
`get_data` and `set_data`. -/
def aliveDefaultFalse (h : WlHeap) (x : InnerObjectId) : Bool :=
  match x.alive with
  | some a => h.aliveStore a
  | none => false

/-- `ConnectionState::no_last_error`. -/
def ConnectionState.no_last_error (st : ConnectionState) : Except WaylandError Unit :=
  match st.last_error with
  | some e => Except.error e
  | none => Except.ok ()

/-- `ConnectionState::store_and_return_error`: an `EPROTO` io error is turned
into the protocol error queried from the display; the result is written to the
sticky slot unconditionally and returned. -/
def ConnectionState.store_and_return_error (st : ConnectionState) (h : WlHeap)
    (err : IoError) : ConnectionState × WaylandError :=
  let werr :=
    if err.rawOsError = some EPROTO then
      WaylandError.Protocol
        { code := h.protoErrCode, object_id := h.protoErrObjectId,
          object_interface := h.protoErrInterface, message := "" }
    else
      WaylandError.Io err
  ({ st with last_error := some werr }, werr)

/-- `ConnectionState::store_if_not_wouldblock_and_return_error`. -/
def ConnectionState.store_if_not_wouldblock_and_return_error (st : ConnectionState)
    (h : WlHeap) (e : IoError) : ConnectionState × WaylandError :=
  if e.kind ≠ IoErrorKind.wouldBlock then
    st.store_and_return_error h e
  else
    (st, WaylandError.Io e)

/-- `InnerBackend::flush`.  The `ret` parameter is the return status of the
`wl_display_flush` FFI call (`Except.error e` models a negative return with
`last_os_error` equal to `e`). -/
def InnerBackend.flush (bk : InnerBackend) (ret : Except IoError Unit) :
    InnerBackend × Except WaylandError Unit :=
  match bk.state.no_last_error with
  | Except.error e => (bk, Except.error e)
  | Except.ok _ =>
    match ret with
    | Except.error e =>
      ({ bk with state := (bk.state.store_if_not_wouldblock_and_return_error bk.heap e).1 },
        Except.error (bk.state.store_if_not_wouldblock_and_return_error bk.heap e).2)
    | Except.ok _ => (bk, Except.ok ())

/-- `Dispatcher::dispatch_pending`.  The `ret` parameter is the return status
of `wl_display_dispatch_pending` / `wl_display_dispatch_queue_pending`
(`Except.ok n` is a non-negative count, `Except.error e` a negative return
with `last_os_error` equal to `e`).  Note that, unlike `flush`, this function
does not consult `no_last_error` before acting. -/
def Dispatcher.dispatch_pending (bk : InnerBackend) (ret : Except IoError Nat) :
    InnerBackend × Except WaylandError Nat :=
  match ret with
  | Except.ok n => (bk, Except.ok n)
  | Except.error e =>
    ({ bk with state := (bk.state.store_if_not_wouldblock_and_return_error bk.heap e).1 },
      Except.error (bk.state.store_if_not_wouldblock_and_return_error bk.heap e).2)

/-- `InnerReadEventsGuard`: the guard owning the prepared-read state; `done`
records whether `read()` has been called. -/
structure InnerReadEventsGuard where
  display : Nat
  done : Bool
deriving DecidableEq

/-- `InnerReadEventsGuard::try_new`.  Each loop iteration performs a
`wl_display_prepare_read[_queue]` FFI call and, on failure, a
`dispatch_pending`; the trace parameter supplies the outcomes of those calls
(`prepOk` is whether `prepare_read` returned non-negatively, the second
component is the libwayland status consumed by `dispatch_pending`).  `none`
models running out of the supplied trace. -/
def InnerReadEventsGuard.try_new :
    InnerBackend → List (Bool × Except IoError Nat) →
      Option (InnerBackend × Except WaylandError InnerReadEventsGuard)
  | _, [] => none
  | bk, (prepOk, dres) :: rest =>
    if prepOk then
      some ({ bk with heap := { bk.heap with readPrepared := true } },
        Except.ok { display := bk.state.display, done := false })
    else
      match (Dispatcher.dispatch_pending bk dres).2 with
      | Except.error e => some ((Dispatcher.dispatch_pending bk dres).1, Except.error e)
      | Except.ok _ => InnerReadEventsGuard.try_new (Dispatcher.dispatch_pending bk dres).1 rest

/-- `InnerReadEventsGuard::read`: sets `done`, performs the
`wl_display_read_events` FFI call (its status is the `readRet` parameter;
the call always ends the prepared-read state), and on success dispatches the
pending events (`dres` is the libwayland status consumed by
`dispatch_pending`).  Returns the guard as it will be seen by `Drop`, the
resulting backend, and the result value. -/
def InnerReadEventsGuard.read (g : InnerReadEventsGuard) (bk : InnerBackend)
    (readRet : Except IoError Unit) (dres : Except IoError Nat) :
    InnerReadEventsGuard × InnerBackend × Except WaylandError Nat :=
  let g2 := { g with done := true }
  let bk1 : InnerBackend := { bk with heap := { bk.heap with readPrepared := false } }
  match readRet with
  | Except.error e =>
    (g2,
      { bk1 with state := (bk1.state.store_if_not_wouldblock_and_return_error bk1.heap e).1 },
      Except.error (bk1.state.store_if_not_wouldblock_and_return_error bk1.heap e).2)
  | Except.ok _ =>
    (g2, (Dispatcher.dispatch_pending bk1 dres).1, (Dispatcher.dispatch_pending bk1 dres).2)

/-- `impl Drop for InnerReadEventsGuard`: calls `wl_display_cancel_read`
(ending the prepared-read state) exactly when `read()` was never called.
The returned boolean reports whether the cancel call was made. -/
def InnerReadEventsGuard.drop (g : InnerReadEventsGuard) (bk : InnerBackend) :
    InnerBackend × Bool :=
  if !g.done then
    ({ bk with heap := { bk.heap with readPrepared := false } }, true)
  else
    (bk, false)

/-- `protocol::Argument` with `ObjectId` object references (an `ObjectId` is a
newtype around `InnerObjectId`, which we use directly). -/
inductive Argument
  | Int (i : Int)
  | Uint (u : Nat)
  | Fixed (f : Int)
  | Str (s : String)
  | Object (o : InnerObjectId)
  | NewId (o : InnerObjectId)
  | Array (a : List Nat)
  | Fd (fd : Int)
deriving DecidableEq

/-- Modelled from the spec: `protocol::check_for_signature` lives in
`wayland-backend/src/protocol.rs`, which is not among the excerpted sources;
per the spec "arity and type must match exactly". -/
def check_for_signature (sig : List ArgumentType) (args : List Argument) : Bool :=
  decide (sig.length = args.length) &&
    (List.zip sig args).all fun p =>
      match p.1, p.2 with
      | ArgumentType.Int, Argument.Int _ => true
      | ArgumentType.Uint, Argument.Uint _ => true
      | ArgumentType.Fixed, Argument.Fixed _ => true
      | ArgumentType.Str _, Argument.Str _ => true
      | ArgumentType.Object _, Argument.Object _ => true
      | ArgumentType.NewId _, Argument.NewId _ => true
      | ArgumentType.Array _, Argument.Array _ => true
      | ArgumentType.Fd, Argument.Fd _ => true
      | _, _ => false

/-- Whether the signature contains a `NewId` argument
(`signature.iter().any(|arg| matches!(arg, ArgumentType::NewId(_)))`). -/
def hasNewId (sig : List ArgumentType) : Bool :=
  sig.any fun t =>
    match t with
    | ArgumentType.NewId _ => true
    | _ => false

/-- Reasons for the `panic!` calls in the embedded code paths. -/
inductive PanicReason
  | unknownOpcode
  | badSignature
  | wrongChildInterface
  | wrongChildVersion
  | genericCtorNoInterface
  | allocFailure
  | missingObjectData
  | argIfaceMismatch
  | nonNullObjectExpected
  | iterExhausted
  | indexOutOfBounds
  | callbackNoObjectData
  | callbackSpuriousData
deriving DecidableEq

/-- Result of resolving the child interface/version of a request. -/
inductive Resolved
  | ok (cs : Option (Nat × Nat))
  | panicked (r : PanicReason)
deriving DecidableEq

/-- The child-spec preparation block of `InnerBackend::send_request`: when the
signature has a `NewId` argument the explicit caller-supplied pair wins (it
must agree with a declared fixed child interface and the parent version when
one is declared), otherwise the declared child interface is used at the
parent version, and a generic constructor without an explicit pair panics. -/
def resolve_child_spec (reg : Registry) (md : MessageDesc) (parent_version : Nat)
    (child_spec : Option (Nat × Nat)) : Resolved :=
  if hasNewId md.signature then
    match child_spec with
    | some (iface, version) =>
      match md.child_interface with
      | some ci =>
        if !(same_interface reg ci iface) then
          Resolved.panicked PanicReason.wrongChildInterface
        else if version ≠ parent_version then
          Resolved.panicked PanicReason.wrongChildVersion
        else
          Resolved.ok (some (iface, version))
      | none => Resolved.ok (some (iface, version))
    | none =>
      match md.child_interface with
      | some ci => Resolved.ok (some (ci, parent_version))
      | none => Resolved.panicked PanicReason.genericCtorNoInterface
  else
    Resolved.ok none

/-- The C union `wl_argument`, as a record with all fields defaulted. -/
structure wl_argument where
  i : Int := 0
  u : Nat := 0
  f : Int := 0
  s : Option String := none
  o : Nat := 0
  n : Nat := 0
  a : Option (List Nat) := none
  h : Int := 0
deriving DecidableEq

/-- Result of building the `[wl_argument]` list for an outgoing request. -/
inductive MarshalResult
  | ok (lst : List wl_argument)
  | invalidId
  | panicked (r : PanicReason)
deriving DecidableEq

/-- The argument-marshalling loop of `InnerBackend::send_request` (iterating
over the arguments while consuming `arg_interfaces` on object arguments; the
liveness re-check inside the non-null object branch reads the sender id's
flag, exactly as the source does). -/
def marshal_go (reg : Registry) (h : WlHeap) (sender : InnerObjectId) (md : MessageDesc) :
    Nat → List Argument → List Nat → List wl_argument → MarshalResult
  | _, [], _, acc => MarshalResult.ok acc.reverse
  | i, arg :: rest, ifaces, acc =>
    match arg with
    | Argument.Uint u => marshal_go reg h sender md (i+1) rest ifaces (({ u := u } : wl_argument) :: acc)
    | Argument.Int v => marshal_go reg h sender md (i+1) rest ifaces (({ i := v } : wl_argument) :: acc)
    | Argument.Fixed v => marshal_go reg h sender md (i+1) rest ifaces (({ f := v } : wl_argument) :: acc)
    | Argument.Fd v => marshal_go reg h sender md (i+1) rest ifaces (({ h := v } : wl_argument) :: acc)
    | Argument.Array av => marshal_go reg h sender md (i+1) rest ifaces (({ a := some av } : wl_argument) :: acc)
    | Argument.Str sv => marshal_go reg h sender md (i+1) rest ifaces (({ s := some sv } : wl_argument) :: acc)
    | Argument.NewId _ => marshal_go reg h sender md (i+1) rest ifaces (({ n := 0 } : wl_argument) :: acc)
    | Argument.Object o =>
      match ifaces with
      | [] => MarshalResult.panicked PanicReason.iterExhausted
      | next_interface :: ifrest =>
        if o.ptr ≠ 0 then
          if !(aliveDefaultTrue h sender) then
            MarshalResult.invalidId
          else if !(same_interface reg next_interface o.interface) then
            MarshalResult.panicked PanicReason.argIfaceMismatch
          else
            marshal_go reg h sender md (i+1) rest ifrest (({ o := o.ptr } : wl_argument) :: acc)
        else
          match md.signature[i]? with
          | some (ArgumentType.Object AllowNull.yes) =>
            marshal_go reg h sender md (i+1) rest ifrest (({ o := 0 } : wl_argument) :: acc)
          | some _ => MarshalResult.panicked PanicReason.nonNullObjectExpected
          | none => MarshalResult.panicked PanicReason.indexOutOfBounds

/-- The `check that all input objects are valid and create the [wl_argument]`
block of `InnerBackend::send_request`. -/
def marshal_args (reg : Registry) (h : WlHeap) (sender : InnerObjectId)
    (md : MessageDesc) (args : List Argument) : MarshalResult :=
  marshal_go reg h sender md 0 args md.arg_interfaces []

/-- `InnerBackend::null_id` (the inner id of the returned `ObjectId`). -/
def null_id : InnerObjectId :=
  { ptr := 0, interface := anonymousInterface, id := 0, alive := none }

/-- `HashSet::insert` on the `known_proxies` set (kept as a duplicate-free
list). -/
def insertProxy (l : List Nat) (p : Nat) : List Nat :=
  if p ∈ l then l else p :: l

/-- Result of `InnerBackend::send_request`: success carries the child id
(`null_id` for non-constructor requests), `invalidId` models
`Err(InvalidId)`, `panicked` a `panic!`, and `ub` a dereference of an invalid
user-data pointer (undefined behaviour in the source). -/
inductive SendResult
  | ok (child : InnerObjectId)
  | invalidId
  | panicked (r : PanicReason)
  | ub
deriving DecidableEq

/-- The `parent_version` computation of `InnerBackend::send_request`
(the display, id 1, is special-cased to version 1). -/
def parentVersion (bk : InnerBackend) (sender : InnerObjectId) : Nat :=
  if sender.id = 1 then 1 else bk.heap.proxyVersion sender.ptr

/-- The tail of `InnerBackend::send_request`: for a destructor message, takes
the sender's user data back (leaving a null user-data pointer), flips the
liveness flag with release ordering, fires the `destroyed` callback, removes
the proxy from `known_proxies` and destroys it. -/
def send_request_epilogue (bk : InnerBackend) (sender : InnerObjectId)
    (md : MessageDesc) (child : InnerObjectId) : InnerBackend × SendResult :=
  if md.is_destructor then
    match sender.alive with
    | some a =>
      match bk.heap.udata sender.ptr with
      | none => (bk, SendResult.ub)
      | some ud =>
        ({ state := { bk.state with
              known_proxies := bk.state.known_proxies.filter fun p => decide (p ≠ sender.ptr) },
           heap := { bk.heap with
              udata := fun q => if q = sender.ptr then none else bk.heap.udata q,
              aliveStore := fun x => if x = a then false else bk.heap.aliveStore x,
              destroyedLog := bk.heap.destroyedLog ++ [(ud.data, sender)],
              destroyedProxies := bk.heap.destroyedProxies ++ [sender.ptr] } },
         SendResult.ok child)
    | none =>
      ({ state := { bk.state with
            known_proxies := bk.state.known_proxies.filter fun p => decide (p ≠ sender.ptr) },
         heap := { bk.heap with
            destroyedProxies := bk.heap.destroyedProxies ++ [sender.ptr] } },
       SendResult.ok child)
  else
    (bk, SendResult.ok child)

/-- `InnerBackend::send_request`.  Object data values (`Arc<dyn ObjectData>`)
are modelled by their identity (a `Nat` label); the
`wl_proxy_marshal_array_constructor_versioned` call allocates the child proxy
from `nextPtr`/`nextId` when a child spec is present and returns null
otherwise (the guest-backend wrapper branch of the source differs only in the
event queue the child is assigned to, which is not modelled). -/
def InnerBackend.send_request (reg : Registry) (bk : InnerBackend)
    (sender : InnerObjectId) (opcode : Nat) (args : List Argument)
    (data : Option Nat) (child_spec : Option (Nat × Nat)) :
    InnerBackend × SendResult :=
  if !(aliveDefaultTrue bk.heap sender) || sender.ptr = 0 then
    (bk, SendResult.invalidId)
  else
    match (reg sender.interface).requests[opcode]? with
    | none => (bk, SendResult.panicked PanicReason.unknownOpcode)
    | some md =>
      if !(check_for_signature md.signature args) then
        (bk, SendResult.panicked PanicReason.badSignature)
      else
        match resolve_child_spec reg md (parentVersion bk sender) child_spec with
        | Resolved.panicked r => (bk, SendResult.panicked r)
        | Resolved.ok cspec =>
          let child_version :=
            match cspec with
            | some (_, v) => v
            | none => parentVersion bk sender
          match marshal_args reg bk.heap sender md args with
          | MarshalResult.invalidId => (bk, SendResult.invalidId)
          | MarshalResult.panicked r => (bk, SendResult.panicked r)
          | MarshalResult.ok _ =>
            match cspec with
            | some (child_interface, _) =>
              let ret := bk.heap.nextPtr
              let h2 := { bk.heap with
                nextPtr := bk.heap.nextPtr + 1,
                nextId := bk.heap.nextId + 1,
                proxyId := fun q => if q = ret then bk.heap.nextId else bk.heap.proxyId q,
                proxyVersion := fun q => if q = ret then child_version else bk.heap.proxyVersion q }
              if ret = 0 then
                ({ bk with heap := h2 }, SendResult.panicked PanicReason.allocFailure)
              else
                let child_alive := h2.nextAlive
                let h3 := { h2 with
                  nextAlive := h2.nextAlive + 1,
                  aliveStore := fun x => if x = child_alive then true else h2.aliveStore x }
                let child_id : InnerObjectId :=
                  { ptr := ret, alive := some child_alive, id := h3.proxyId ret,
                    interface := child_interface }
                match data with
                | none =>
                  ({ bk with heap :=
                      { h3 with destroyedProxies := h3.destroyedProxies ++ [ret] } },
                   SendResult.panicked PanicReason.missingObjectData)
                | some d =>
                  send_request_epilogue
                    { state := { bk.state with
                        known_proxies := insertProxy bk.state.known_proxies ret },
                      heap := { h3 with
                        udata := fun q =>
                          if q = ret then
                            some { alive := child_alive, data := d, interface := child_interface }
                          else h3.udata q,
                        rustManaged := fun q => if q = ret then true else h3.rustManaged q } }
                    sender md child_id
            | none => send_request_epilogue bk sender md null_id

/-- `ObjectInfo`. -/
structure ObjectInfo where
  id : Nat
  interface : Nat
  version : Nat
deriving DecidableEq

/-- `InnerBackend::info`. -/
def InnerBackend.info (bk : InnerBackend) (x : InnerObjectId) :
    Except InvalidId ObjectInfo :=
  if !(aliveDefaultTrue bk.heap x) || x.ptr = 0 then
    Except.error InvalidId.mk
  else
    Except.ok
      { id := x.id, interface := x.interface,
        version := if x.id = 1 then 1 else bk.heap.proxyVersion x.ptr }

/-- `InnerBackend::get_data`; `none` models the undefined dereference of a
missing user-data pointer. -/
def InnerBackend.get_data (bk : InnerBackend) (x : InnerObjectId) :
    Option (Except InvalidId Nat) :=
  if !(aliveDefaultFalse bk.heap x) then
    some (Except.error InvalidId.mk)
  else if x.id = 1 then
    some (Except.ok DumbObjectData)
  else
    match bk.heap.udata x.ptr with
    | some ud => some (Except.ok ud.data)
    | none => none

/-- `InnerBackend::set_data`; `none` models the undefined dereference of a
missing user-data pointer. -/
def InnerBackend.set_data (bk : InnerBackend) (x : InnerObjectId) (d : Nat) :
    Option (InnerBackend × Except InvalidId Unit) :=
  if !(aliveDefaultFalse bk.heap x) then
    some (bk, Except.error InvalidId.mk)
  else if x.id = 1 then
    some (bk, Except.error InvalidId.mk)
  else
    match bk.heap.udata x.ptr with
    | some ud =>
      some
        ({ bk with heap := { bk.heap with
            udata := fun q => if q = x.ptr then some { ud with data := d } else bk.heap.udata q } },
         Except.ok ())
    | none => none

/-- `Message`. -/
structure Message where
  sender_id : InnerObjectId
  opcode : Nat
  args : List Argument
deriving DecidableEq

/-- Result of the event-argument parsing loop of `dispatcher_func`: success
carries the parsed arguments, the last object created by a `NewId` argument
and the updated heap; `fail` is the `return -1` taken on an interface
mismatch; `ub` models a dereference of an invalid pointer. -/
inductive ParseResult
  | ok (parsed : List Argument) (created : Option InnerObjectId) (h : WlHeap)
  | fail (h : WlHeap)
  | ub (h : WlHeap)

/-- The argument-parsing loop of `dispatcher_func`: signature-directed reading
of the `wl_argument` array; `arg_interfaces` is consumed only on non-null
object arguments; a non-null `NewId` argument allocates a fresh liveness cell
and registers the new proxy with placeholder (`UninitObjectData`) user data. -/
def parse_args (reg : Registry) (md : MessageDesc) :
    WlHeap → List ArgumentType → List Nat → List wl_argument → List Argument →
      Option InnerObjectId → ParseResult
  | h, [], _, _, acc, created => ParseResult.ok acc.reverse created h
  | h, _ :: _, _, [], _, _ => ParseResult.ub h
  | h, t :: trest, ifaces, warg :: wrest, acc, created =>
    match t with
    | ArgumentType.Uint =>
      parse_args reg md h trest ifaces wrest (Argument.Uint warg.u :: acc) created
    | ArgumentType.Int =>
      parse_args reg md h trest ifaces wrest (Argument.Int warg.i :: acc) created
    | ArgumentType.Fixed =>
      parse_args reg md h trest ifaces wrest (Argument.Fixed warg.f :: acc) created
    | ArgumentType.Fd =>
      parse_args reg md h trest ifaces wrest (Argument.Fd warg.h :: acc) created
    | ArgumentType.Array _ =>
      match warg.a with
      | some content =>
        parse_args reg md h trest ifaces wrest (Argument.Array content :: acc) created
      | none => ParseResult.ub h
    | ArgumentType.Str _ =>
      match warg.s with
      | some sv =>
        parse_args reg md h trest ifaces wrest (Argument.Str sv :: acc) created
      | none => ParseResult.ub h
    | ArgumentType.Object _ =>
      if warg.o ≠ 0 then
        match ifaces with
        | next_interface :: ifrest =>
          if h.rustManaged warg.o then
            match h.udata warg.o with
            | none => ParseResult.ub h
            | some obj_udata =>
              if !(same_interface reg next_interface obj_udata.interface) then
                ParseResult.fail h
              else
                parse_args reg md h trest ifrest wrest
                  (Argument.Object
                    { alive := some obj_udata.alive, ptr := warg.o,
                      id := h.proxyId warg.o, interface := obj_udata.interface } :: acc)
                  created
          else
            parse_args reg md h trest ifrest wrest
              (Argument.Object
                { alive := none, id := h.proxyId warg.o, ptr := warg.o,
                  interface := next_interface } :: acc)
              created
        | [] =>
          if h.rustManaged warg.o then
            match h.udata warg.o with
            | none => ParseResult.ub h
            | some obj_udata =>
              if !(same_interface reg anonymousInterface obj_udata.interface) then
                ParseResult.fail h
              else
                parse_args reg md h trest [] wrest
                  (Argument.Object
                    { alive := some obj_udata.alive, ptr := warg.o,
                      id := h.proxyId warg.o, interface := obj_udata.interface } :: acc)
                  created
          else
            parse_args reg md h trest [] wrest
              (Argument.Object
                { alive := none, id := h.proxyId warg.o, ptr := warg.o,
                  interface := anonymousInterface } :: acc)
              created
      else
        parse_args reg md h trest ifaces wrest
          (Argument.Object
            { alive := none, id := 0, ptr := 0, interface := anonymousInterface } :: acc)
          created
    | ArgumentType.NewId _ =>
      if warg.o ≠ 0 then
        let child_interface :=
          match md.child_interface with
          | some ci => ci
          | none => anonymousInterface
        let child_alive := h.nextAlive
        let child_id : InnerObjectId :=
          { ptr := warg.o, alive := some child_alive, id := h.proxyId warg.o,
            interface := child_interface }
        parse_args reg md
          { h with
            nextAlive := h.nextAlive + 1,
            aliveStore := fun x => if x = child_alive then true else h.aliveStore x,
            udata := fun q =>
              if q = warg.o then
                some { alive := child_alive, data := UninitObjectData,
                       interface := child_interface }
              else h.udata q,
            rustManaged := fun q => if q = warg.o then true else h.rustManaged q }
          trest ifaces wrest (Argument.NewId child_id :: acc) (some child_id)
      else
        parse_args reg md h trest ifaces wrest
          (Argument.NewId
            { id := 0, ptr := 0, alive := none, interface := anonymousInterface } :: acc)
          created

/-- Result of `dispatcher_func`: the C return code, a `panic!`, or undefined
behaviour from an invalid dereference. -/
inductive DispResult
  | ret (code : Int)
  | panicked (r : PanicReason)
  | ub
deriving DecidableEq

/-- `dispatcher_func`.  The `eventFn` parameter is the shallow embedding of
the dynamic `udata.data.clone().event(backend, message)` call: given the
object-data identity and the message, it returns the optional object data for
a created child.  After the event callback, a destructor event tears the
sender down (flag flip, `destroyed` callback, proxy destruction), and the
`(created, ret)` pairing is enforced: a created object must have been given
data (else panic) and data must not be returned when nothing was created
(else panic). -/
def dispatcher_func (reg : Registry) (eventFn : Nat → Message → Option Nat)
    (bk : InnerBackend) (proxy : Nat) (opcode : Nat) (args : List wl_argument) :
    InnerBackend × DispResult :=
  match bk.heap.udata proxy with
  | none => (bk, DispResult.ub)
  | some ud =>
    match (reg ud.interface).events[opcode]? with
    | none => (bk, DispResult.ret (-1))
    | some md =>
      match parse_args reg md bk.heap md.signature md.arg_interfaces args [] none with
      | ParseResult.ub h2 => ({ bk with heap := h2 }, DispResult.ub)
      | ParseResult.fail h2 => ({ bk with heap := h2 }, DispResult.ret (-1))
      | ParseResult.ok parsed created h2 =>
        let id : InnerObjectId :=
          { alive := some ud.alive, ptr := proxy, id := h2.proxyId proxy,
            interface := ud.interface }
        let kp1 :=
          match created with
          | some c => insertProxy bk.state.known_proxies c.ptr
          | none => bk.state.known_proxies
        let kp2 :=
          if md.is_destructor then kp1.filter fun p => decide (p ≠ proxy) else kp1
        let st2 := { bk.state with known_proxies := kp2 }
        let ret := eventFn ud.data { sender_id := id, opcode := opcode, args := parsed }
        let h3 :=
          if md.is_destructor then
            { h2 with
              udata := fun q => if q = proxy then none else h2.udata q,
              aliveStore := fun x => if x = ud.alive then false else h2.aliveStore x,
              destroyedLog := h2.destroyedLog ++ [(ud.data, id)],
              destroyedProxies := h2.destroyedProxies ++ [proxy] }
          else h2
        match created, ret with
        | some c, some child_data =>
          match h3.udata c.ptr with
          | none => ({ state := st2, heap := h3 }, DispResult.ub)
          | some cud =>
            ({ state := st2,
               heap := { h3 with
                  udata := fun q =>
                    if q = c.ptr then some { cud with data := child_data } else h3.udata q } },
             DispResult.ret 0)
        | some _, none =>
          ({ state := st2, heap := h3 }, DispResult.panicked PanicReason.callbackNoObjectData)
        | none, some _ =>
          ({ state := st2, heap := h3 }, DispResult.panicked PanicReason.callbackSpuriousData)
        | none, none => ({ state := st2, heap := h3 }, DispResult.ret 0)

/-! ### Concrete fixtures used by the witnesses -/

/-- A concrete anonymous interface (registry index 0). -/
def ifaceAnon : Interface :=
  { name := "anonymous", version := 0, requests := [], events := [] }

/-- A concrete `wl_display` interface (registry index 1). -/
def ifaceDisplay : Interface :=
  { name := "wl_display", version := 1, requests := [], events := [] }

/-- A destructor request with an empty signature. -/
def reqDestroy : MessageDesc :=
  { name := "destroy", signature := [], is_destructor := true,
    child_interface := none, arg_interfaces := [] }

/-- A constructor request with a declared fixed child interface (index 3). -/
def reqCreate : MessageDesc :=
  { name := "create", signature := [ArgumentType.NewId AllowNull.no],
    is_destructor := false, child_interface := some 3, arg_interfaces := [] }

/-- A generic constructor request (no declared child interface). -/
def reqGeneric : MessageDesc :=
  { name := "bind", signature := [ArgumentType.NewId AllowNull.no],
    is_destructor := false, child_interface := none, arg_interfaces := [] }

/-- An event creating a new object of interface index 3. -/
def evNew : MessageDesc :=
  { name := "new_obj", signature := [ArgumentType.NewId AllowNull.no],
    is_destructor := false, child_interface := some 3, arg_interfaces := [] }

/-- An event with an empty signature. -/
def evPlain : MessageDesc :=
  { name := "ping", signature := [], is_destructor := false,
    child_interface := none, arg_interfaces := [] }

/-- A concrete interface with the requests and events above (index 2). -/
def ifaceX : Interface :=
  { name := "iface_x", version := 3,
    requests := [reqDestroy, reqCreate, reqGeneric],
    events := [evNew, evPlain] }

/-- A concrete child interface (index 3). -/
def ifaceChild : Interface :=
  { name := "iface_child", version := 3, requests := [], events := [] }

/-- A concrete registry. -/
def reg0 : Registry := fun n =>
  if n = 1 then ifaceDisplay
  else if n = 2 then ifaceX
  else if n = 3 then ifaceChild
  else ifaceAnon

/-- A managed object id of interface `ifaceX` at proxy pointer 5, liveness
cell 0. -/
def objSender : InnerObjectId :=
  { id := 2, ptr := 5, alive := some 0, interface := 2 }

/-- A second managed id sharing liveness cell 0 with `objSender` (obtained via
a different code path, hence different recorded pointer fields). -/
def objSenderAlias : InnerObjectId :=
  { id := 2, ptr := 5, alive := some 0, interface := 3 }

/-- A managed id reusing numeric id 2 with a distinct liveness cell. -/
def objRecycled : InnerObjectId :=
  { id := 2, ptr := 6, alive := some 1, interface := 2 }

/-- A foreign (unmanaged) object id. -/
def objForeign : InnerObjectId :=
  { id := 8, ptr := 9, alive := none, interface := 3 }

/-- A concrete heap: liveness cell 0 is alive, the proxy at pointer 5 is
rust-managed with user data (object-data label 7, interface index 2). -/
def heap0 : WlHeap :=
  { aliveStore := fun x => decide (x = 0),
    nextAlive := 2,
    udata := fun q =>
      if q = 5 then some { alive := 0, data := 7, interface := 2 } else none,
    proxyVersion := fun _ => 3,
    proxyId := fun q => q,
    rustManaged := fun q => decide (q = 5),
    nextPtr := 100,
    nextId := 10,
    destroyedLog := [],
    destroyedProxies := [],
    readPrepared := false,
    protoErrCode := 0,
    protoErrObjectId := 0,
    protoErrInterface := "" }

/-- A concrete healthy connection state knowing the proxy at pointer 5. -/
def st0 : ConnectionState :=
  { display := 1, evq := 0,
    display_id := { id := 1, ptr := 1, alive := some 0, interface := 1 },
    last_error := none, known_proxies := [5] }

/-- A concrete healthy backend. -/
def bk0 : InnerBackend := { state := st0, heap := heap0 }

/-- A non-`WouldBlock` io error (broken pipe). -/
def errIo1 : IoError := { kind := IoErrorKind.brokenPipe, rawOsError := some 32 }

/-- A different non-`WouldBlock` io error (connection reset). -/
def errIo2 : IoError := { kind := IoErrorKind.connectionReset, rawOsError := some 104 }

/-- A `WouldBlock` io error. -/
def errWould : IoError := { kind := IoErrorKind.wouldBlock, rawOsError := some 11 }

/-- A backend whose sticky slot already holds the io error `errIo1`. -/
def bkWithErr : InnerBackend :=
  { state := { st0 with last_error := some (WaylandError.Io errIo1) }, heap := heap0 }

/-! ### Claim theorems -/

/-- Claim C2: two managed `ObjectId`s are equal iff they share the same
liveness-flag instance; two foreign ids are equal iff pointer, numeric id and
interface all match; a managed and a foreign id are never equal; in
particular two managed ids for different objects reusing the same numeric id
(distinct liveness cells) are never equal. -/
theorem C2_object_id_equality (reg : Registry) (x y : InnerObjectId) :
    (∀ a b, x.alive = some a → y.alive = some b →
        (InnerObjectId.eq reg x y = true ↔ a = b)) ∧
    (x.alive = none → y.alive = none →
        (InnerObjectId.eq reg x y = true ↔
          x.ptr = y.ptr ∧ x.id = y.id ∧
            same_interface reg x.interface y.interface = true)) ∧
    (∀ a, x.alive = some a → y.alive = none → InnerObjectId.eq reg x y = false) ∧
    (∀ b, x.alive = none → y.alive = some b → InnerObjectId.eq reg x y = false) ∧
    (∀ a b, x.alive = some a → y.alive = some b → a ≠ b →
        InnerObjectId.eq reg x y = false) := by
  refine ⟨?_, ?_, ?_, ?_, ?_⟩
  · intro a b hxa hyb
    simp [InnerObjectId.eq, hxa, hyb]
  · intro hx hy
    simp [InnerObjectId.eq, hx, hy, and_assoc]
  · intro a hx hy
    simp [InnerObjectId.eq, hx, hy]
  · intro b hx hy
    simp [InnerObjectId.eq, hx, hy]
  · intro a b hx hy hne
    simp [InnerObjectId.eq, hx, hy, hne]

/-- Witness for C2 at concrete ids: two managed ids sharing liveness cell 0
are equal, a recycled id with a fresh cell is not equal, and a foreign id is
not equal to a managed one. -/
theorem C2_object_id_equality_witness :
    InnerObjectId.eq reg0 objSender objSenderAlias = true ∧
    InnerObjectId.eq reg0 objSender objRecycled = false ∧
    InnerObjectId.eq reg0 objSender objForeign = false :=
  ⟨((C2_object_id_equality reg0 objSender objSenderAlias).1 0 0 rfl rfl).mpr rfl,
   (C2_object_id_equality reg0 objSender objRecycled).2.2.2.2 0 1 rfl rfl (by decide),
   (C2_object_id_equality reg0 objSender objForeign).2.2.1 0 rfl rfl⟩

/-- Claim C8: a `WouldBlock` io error is returned transparently and the
sticky slot is untouched; any other io error is stored in the slot and
returned, so the slot is written by an io error iff it is not `WouldBlock`. -/
theorem C8_wouldblock_not_sticky (st : ConnectionState) (h : WlHeap) (e : IoError) :
    (e.kind = IoErrorKind.wouldBlock →
      st.store_if_not_wouldblock_and_return_error h e = (st, WaylandError.Io e)) ∧
    (e.kind ≠ IoErrorKind.wouldBlock →
      (st.store_if_not_wouldblock_and_return_error h e).1.last_error
          = some (st.store_if_not_wouldblock_and_return_error h e).2 ∧
      (st.store_if_not_wouldblock_and_return_error h e).1
          = { st with
              last_error := some (st.store_if_not_wouldblock_and_return_error h e).2 }) := by
  constructor
  · intro hk
    simp [ConnectionState.store_if_not_wouldblock_and_return_error, hk]
  · intro hk
    simp [ConnectionState.store_if_not_wouldblock_and_return_error, hk,
      ConnectionState.store_and_return_error]

/-- Witness for C8 at concrete errors: `errWould` is returned with the state
unchanged, `errIo1` is stored in the slot. -/
theorem C8_wouldblock_not_sticky_witness :
    st0.store_if_not_wouldblock_and_return_error heap0 errWould = (st0, WaylandError.Io errWould) ∧
    (st0.store_if_not_wouldblock_and_return_error heap0 errIo1).1.last_error
      = some (st0.store_if_not_wouldblock_and_return_error heap0 errIo1).2 :=
  ⟨(C8_wouldblock_not_sticky st0 heap0 errWould).1 (by decide),
   ((C8_wouldblock_not_sticky st0 heap0 errIo1).2 (by decide)).1⟩

/-- Claim C1, counterexample: with `errIo1` already in the sticky slot, a
dispatch with a successful libwayland status performs its work (returns
`ok 3`, not the stored error), and a dispatch that fails with `errIo2`
replaces the stored error — so the first recorded error does not win and
dispatch does not fail fast on the stored error. -/
theorem C1_sticky_error_counterexample :
    bkWithErr.state.last_error = some (WaylandError.Io errIo1) ∧
    Dispatcher.dispatch_pending bkWithErr (Except.ok 3) = (bkWithErr, Except.ok 3) ∧
    (Dispatcher.dispatch_pending bkWithErr (Except.error errIo2)).1.state.last_error
      = some (WaylandError.Io errIo2) ∧
    WaylandError.Io errIo2 ≠ WaylandError.Io errIo1 := by
  refine ⟨rfl, rfl, ?_, by decide⟩
  simp [Dispatcher.dispatch_pending, ConnectionState.store_if_not_wouldblock_and_return_error,
    ConnectionState.store_and_return_error, errIo2, EPROTO, bkWithErr, st0]

/-- Claim C1 (amended): once a fatal error is recorded the slot is never
cleared and every subsequent `flush` fails fast with the stored error without
flushing; but the store itself is unconditional, so the dispatch path (which
does not consult the slot and performs its work regardless) replaces the
stored error when a later fatal error surfaces through it. -/
theorem C1_sticky_error_amended (bk : InnerBackend) (e0 : WaylandError)
    (r : Except IoError Unit) (e : IoError) (n : Nat)
    (hset : bk.state.last_error = some e0) :
    InnerBackend.flush bk r = (bk, Except.error e0) ∧
    (bk.state.store_if_not_wouldblock_and_return_error bk.heap e).1.last_error ≠ none ∧
    (e.kind ≠ IoErrorKind.wouldBlock → e.rawOsError ≠ some EPROTO →
      (Dispatcher.dispatch_pending bk (Except.error e)).1.state.last_error
        = some (WaylandError.Io e)) ∧
    Dispatcher.dispatch_pending bk (Except.ok n) = (bk, Except.ok n) := by
  refine ⟨?_, ?_, ?_, rfl⟩
  · simp [InnerBackend.flush, ConnectionState.no_last_error, hset]
  · by_cases hk : e.kind = IoErrorKind.wouldBlock
    · simp [ConnectionState.store_if_not_wouldblock_and_return_error, hk, hset]
    · simp [ConnectionState.store_if_not_wouldblock_and_return_error, hk,
        ConnectionState.store_and_return_error]
  · intro hk hos
    simp [Dispatcher.dispatch_pending, ConnectionState.store_if_not_wouldblock_and_return_error,
      hk, ConnectionState.store_and_return_error, hos]

/-- Witness for the amended C1 at a concrete backend: the stored error is
returned by `flush`, a later dispatch failure replaces it, and a successful
dispatch still performs its work. -/
theorem C1_sticky_error_amended_witness :
    InnerBackend.flush bkWithErr (Except.ok ())
        = (bkWithErr, Except.error (WaylandError.Io errIo1)) ∧
    (Dispatcher.dispatch_pending bkWithErr (Except.error errIo2)).1.state.last_error
        = some (WaylandError.Io errIo2) ∧
    Dispatcher.dispatch_pending bkWithErr (Except.ok 3) = (bkWithErr, Except.ok 3) := by
  have h := C1_sticky_error_amended bkWithErr (WaylandError.Io errIo1) (Except.ok ()) errIo2 3 rfl
  exact ⟨h.1, h.2.2.1 (by decide) (by decide), h.2.2.2⟩

/-- The backend `bk0` after a successful read preparation. -/
def bk0prep : InnerBackend := { bk0 with heap := { heap0 with readPrepared := true } }

/-- Helper: a successful `try_new` returns a guard with `done = false` and
leaves the read-intent (prepared) flag set. -/
theorem try_new_ok (trace : List (Bool × Except IoError Nat)) :
    ∀ (bk bk' : InnerBackend) (g : InnerReadEventsGuard),
    InnerReadEventsGuard.try_new bk trace = some (bk', Except.ok g) →
    g.done = false ∧ bk'.heap.readPrepared = true := by
  induction trace with
  | nil =>
    intro bk bk' g h
    simp [InnerReadEventsGuard.try_new] at h
  | cons hd rest ih =>
    intro bk bk' g h
    obtain ⟨prepOk, dres⟩ := hd
    by_cases hp : prepOk = true
    · simp only [InnerReadEventsGuard.try_new, hp, if_true, Option.some.injEq,
        Prod.mk.injEq, Except.ok.injEq] at h
      obtain ⟨hbk, hg⟩ := h
      subst hbk
      subst hg
      exact ⟨rfl, rfl⟩
    · simp only [InnerReadEventsGuard.try_new, hp, if_false] at h
      rcases hd2 : (Dispatcher.dispatch_pending bk dres).2 with e | n
      · rw [hd2] at h
        simp at h
      · rw [hd2] at h
        exact ih _ _ _ h

/-- Claim C4: a guard produced by a successful `try_new` starts with
`done = false` and the prepared state set; calling `read()` marks the guard
done (so the implicit drop performs no cancel) and returns the state machine
to idle; dropping the guard without calling `read()` invokes the cancel and
also returns the state machine to idle — so cancel runs iff `read()` was
never called, and the prepared state always returns to idle. -/
theorem C4_read_guard_terminal (bk bk' : InnerBackend)
    (trace : List (Bool × Except IoError Nat)) (g : InnerReadEventsGuard)
    (htry : InnerReadEventsGuard.try_new bk trace = some (bk', Except.ok g)) :
    g.done = false ∧
    bk'.heap.readPrepared = true ∧
    (∀ rr dres,
      (InnerReadEventsGuard.read g bk' rr dres).1.done = true ∧
      (InnerReadEventsGuard.drop (InnerReadEventsGuard.read g bk' rr dres).1
          (InnerReadEventsGuard.read g bk' rr dres).2.1).2 = false ∧
      (InnerReadEventsGuard.read g bk' rr dres).2.1.heap.readPrepared = false) ∧
    (InnerReadEventsGuard.drop g bk').2 = true ∧
    (InnerReadEventsGuard.drop g bk').1.heap.readPrepared = false := by
  obtain ⟨hdone, hprep⟩ := try_new_ok trace bk bk' g htry
  refine ⟨hdone, hprep, ?_, ?_, ?_⟩
  · intro rr dres
    cases rr <;> cases dres <;> exact ⟨rfl, rfl, rfl⟩
  · simp [InnerReadEventsGuard.drop, hdone]
  · simp [InnerReadEventsGuard.drop, hdone]

/-- Witness for C4 at a concrete prepared guard: dropping without reading
cancels and clears the prepared flag; reading marks the guard done. -/
theorem C4_read_guard_terminal_witness :
    (InnerReadEventsGuard.drop { display := 1, done := false } bk0prep).2 = true ∧
    (InnerReadEventsGuard.drop { display := 1, done := false } bk0prep).1.heap.readPrepared
        = false ∧
    (InnerReadEventsGuard.read { display := 1, done := false } bk0prep
        (Except.ok ()) (Except.ok 0)).1.done = true := by
  have h := C4_read_guard_terminal bk0 bk0prep [(true, Except.ok 0)]
    { display := 1, done := false } rfl
  exact ⟨h.2.2.2.1, h.2.2.2.2, (h.2.2.1 (Except.ok ()) (Except.ok 0)).1⟩

/-- Claim C7: when read preparation fails, `try_new` dispatches the pending
messages and retries on the resulting backend; a dispatch error is returned
immediately; a successful preparation returns at once with the prepared flag
set, and every successful `try_new` ends with the prepared flag set. -/
theorem C7_try_new_drain_retry :
    (∀ (bk : InnerBackend) trace (bk' : InnerBackend) g,
        InnerReadEventsGuard.try_new bk trace = some (bk', Except.ok g) →
        bk'.heap.readPrepared = true) ∧
    (∀ (bk : InnerBackend) dres rest (n : Nat),
        (Dispatcher.dispatch_pending bk dres).2 = Except.ok n →
        InnerReadEventsGuard.try_new bk ((false, dres) :: rest)
          = InnerReadEventsGuard.try_new (Dispatcher.dispatch_pending bk dres).1 rest) ∧
    (∀ (bk : InnerBackend) dres rest (e : WaylandError),
        (Dispatcher.dispatch_pending bk dres).2 = Except.error e →
        InnerReadEventsGuard.try_new bk ((false, dres) :: rest)
          = some ((Dispatcher.dispatch_pending bk dres).1, Except.error e)) ∧
    (∀ (bk : InnerBackend) dres rest,
        InnerReadEventsGuard.try_new bk ((true, dres) :: rest)
          = some ({ bk with heap := { bk.heap with readPrepared := true } },
              Except.ok { display := bk.state.display, done := false })) := by
  refine ⟨?_, ?_, ?_, ?_⟩
  · intro bk trace bk' g h
    exact (try_new_ok trace bk bk' g h).2
  · intro bk dres rest n h
    simp [InnerReadEventsGuard.try_new, h]
  · intro bk dres rest e h
    simp [InnerReadEventsGuard.try_new, h]
  · intro bk dres rest
    simp [InnerReadEventsGuard.try_new]

/-- Witness for C7 at concrete traces: a failed preparation followed by a
successful drain retries, a failed drain surfaces the converted dispatch
error, and a successful preparation sets the prepared flag. -/
theorem C7_try_new_drain_retry_witness :
    bk0prep.heap.readPrepared = true ∧
    InnerReadEventsGuard.try_new bk0 [(false, Except.ok 0), (true, Except.ok 0)]
      = InnerReadEventsGuard.try_new (Dispatcher.dispatch_pending bk0 (Except.ok 0)).1
          [(true, Except.ok 0)] ∧
    InnerReadEventsGuard.try_new bk0 [(false, Except.error errIo1)]
      = some ((Dispatcher.dispatch_pending bk0 (Except.error errIo1)).1,
          Except.error (WaylandError.Io errIo1)) := by
  have h := C7_try_new_drain_retry
  exact ⟨h.1 bk0 [(true, Except.ok 0)] bk0prep { display := 1, done := false } rfl,
    h.2.1 bk0 (Except.ok 0) [(true, Except.ok 0)] 0 rfl,
    h.2.2.1 bk0 (Except.error errIo1) [] (WaylandError.Io errIo1) rfl⟩

/-- Claim C9: `get_data` on a foreign (liveness-flag-absent) id always fails
with `InvalidId`, even though the very same id passes the liveness gate used
by `send_request` and `info` (which default a missing flag to alive, so
`info` succeeds on a non-null foreign id); and `get_data` can only succeed on
an id whose liveness flag exists and is true. -/
theorem C9_foreign_get_data (bk : InnerBackend) (x : InnerObjectId)
    (hforeign : x.alive = none) :
    InnerBackend.get_data bk x = some (Except.error InvalidId.mk) ∧
    aliveDefaultTrue bk.heap x = true ∧
    (x.ptr ≠ 0 →
      InnerBackend.info bk x = Except.ok
        { id := x.id, interface := x.interface,
          version := if x.id = 1 then 1 else bk.heap.proxyVersion x.ptr }) ∧
    (∀ (y : InnerObjectId) (d : Nat),
      InnerBackend.get_data bk y = some (Except.ok d) →
      ∃ a, y.alive = some a ∧ bk.heap.aliveStore a = true) := by
  refine ⟨?_, ?_, ?_, ?_⟩
  · simp [InnerBackend.get_data, aliveDefaultFalse, hforeign]
  · simp [aliveDefaultTrue, hforeign]
  · intro hptr
    simp [InnerBackend.info, aliveDefaultTrue, hforeign, hptr]
  · intro y d h
    cases hAD : aliveDefaultFalse bk.heap y with
    | false => simp [InnerBackend.get_data, hAD] at h
    | true =>
      rcases hya : y.alive with _ | a
      · rw [aliveDefaultFalse, hya] at hAD
        exact absurd hAD (by simp)
      · refine ⟨a, rfl, ?_⟩
        rw [aliveDefaultFalse, hya] at hAD
        exact hAD

/-- Witness for C9 at concrete ids: the foreign id fails `get_data` but
passes `info`, while the managed live id yields its data. -/
theorem C9_foreign_get_data_witness :
    InnerBackend.get_data bk0 objForeign = some (Except.error InvalidId.mk) ∧
    InnerBackend.info bk0 objForeign
      = Except.ok { id := 8, interface := 3, version := 3 } ∧
    (∃ a, objSender.alive = some a ∧ bk0.heap.aliveStore a = true) := by
  have h := C9_foreign_get_data bk0 objForeign rfl
  exact ⟨h.1, h.2.2.1 (by decide), h.2.2.2 objSender 7 rfl⟩

/-- The managed display id (numeric id 1, liveness cell 0). -/
def objDisplay : InnerObjectId := { id := 1, ptr := 1, alive := some 0, interface := 1 }

/-- Claim C10: on the live display (numeric id 1), `set_data` always fails
with `InvalidId`, and `get_data` returns a fresh `DumbObjectData` value
rather than any user data associated with the display. -/
theorem C10_display_data (bk : InnerBackend) (x : InnerObjectId) (a d : Nat)
    (hid : x.id = 1) (ha : x.alive = some a) (halive : bk.heap.aliveStore a = true) :
    InnerBackend.set_data bk x d = some (bk, Except.error InvalidId.mk) ∧
    InnerBackend.get_data bk x = some (Except.ok DumbObjectData) := by
  constructor
  · simp [InnerBackend.set_data, aliveDefaultFalse, ha, halive, hid]
  · simp [InnerBackend.get_data, aliveDefaultFalse, ha, halive, hid]

/-- Witness for C10 at the concrete display id of `bk0`. -/
theorem C10_display_data_witness :
    InnerBackend.set_data bk0 objDisplay 42 = some (bk0, Except.error InvalidId.mk) ∧
    InnerBackend.get_data bk0 objDisplay = some (Except.ok DumbObjectData) :=
  C10_display_data bk0 objDisplay 0 42 rfl rfl (by decide)

/-- Claim C6: for a request with a `NewId` argument, the child interface and
version used are the caller-supplied pair when one is given (it is accepted
as-is when no fixed child interface is declared, and must agree with a
declared one and the parent version); otherwise the declared fixed child
interface at the parent version; and a generic constructor (no declared
child interface) with no explicit pair panics, also through `send_request`. -/
theorem C6_child_spec_resolution (reg : Registry) (md : MessageDesc) (pv : Nat)
    (hnew : hasNewId md.signature = true) :
    (∀ i v,
      (md.child_interface = none ∨
        ∃ ci, md.child_interface = some ci ∧ same_interface reg ci i = true ∧ v = pv) →
      resolve_child_spec reg md pv (some (i, v)) = Resolved.ok (some (i, v))) ∧
    (∀ ci, md.child_interface = some ci →
      resolve_child_spec reg md pv none = Resolved.ok (some (ci, pv))) ∧
    (md.child_interface = none →
      resolve_child_spec reg md pv none
        = Resolved.panicked PanicReason.genericCtorNoInterface) ∧
    (∀ (bk : InnerBackend) (sender : InnerObjectId) (opcode : Nat)
        (args : List Argument) (data : Option Nat),
      aliveDefaultTrue bk.heap sender = true → sender.ptr ≠ 0 →
      (reg sender.interface).requests[opcode]? = some md →
      check_for_signature md.signature args = true →
      md.child_interface = none →
      InnerBackend.send_request reg bk sender opcode args data none
        = (bk, SendResult.panicked PanicReason.genericCtorNoInterface)) := by
  refine ⟨?_, ?_, ?_, ?_⟩
  · intro i v hcase
    rcases hcase with hnone | ⟨ci, hci, hsame, hv⟩
    · simp [resolve_child_spec, hnew, hnone]
    · subst hv
      simp [resolve_child_spec, hnew, hci, hsame]
  · intro ci hci
    simp [resolve_child_spec, hnew, hci]
  · intro hnone
    simp [resolve_child_spec, hnew, hnone]
  · intro bk sender opcode args data halive hptr hmd hsig hnone
    simp [InnerBackend.send_request, halive, hptr, hmd, hsig,
      resolve_child_spec, hnew, hnone]

/-- Witness for C6 at the concrete interfaces: explicit pair accepted,
declared child interface at the parent version used, generic constructor
panics in resolution and through `send_request`. -/
theorem C6_child_spec_resolution_witness :
    resolve_child_spec reg0 reqCreate 3 (some (3, 3)) = Resolved.ok (some (3, 3)) ∧
    resolve_child_spec reg0 reqCreate 3 none = Resolved.ok (some (3, 3)) ∧
    resolve_child_spec reg0 reqGeneric 3 none
      = Resolved.panicked PanicReason.genericCtorNoInterface ∧
    InnerBackend.send_request reg0 bk0 objSender 2 [Argument.NewId null_id] none none
      = (bk0, SendResult.panicked PanicReason.genericCtorNoInterface) := by
  have h1 := C6_child_spec_resolution reg0 reqCreate 3 (by decide)
  have h2 := C6_child_spec_resolution reg0 reqGeneric 3 (by decide)
  exact ⟨h1.1 3 3 (Or.inr ⟨3, rfl, by decide, rfl⟩), h1.2.1 3 rfl, h2.2.2.1 rfl,
    h2.2.2.2 bk0 objSender 2 [Argument.NewId null_id] none (by decide) (by decide)
      rfl (by decide) rfl⟩

/-- Claim C3: after a successful send of a destructor request on a managed
live id, the liveness flag is false, the `destroyed` callback has fired
exactly once (the log gained exactly one entry for this object), the proxy is
removed from `known_proxies`, and every subsequent `send_request`, `get_data`
or `info` on that id fails with `InvalidId`. -/
theorem C3_destructor_send (reg : Registry) (bk : InnerBackend) (sender : InnerObjectId)
    (opcode : Nat) (args : List Argument) (data : Option Nat) (cs : Option (Nat × Nat))
    (a : Nat) (md : MessageDesc) (ud : ProxyUserData) (L : List wl_argument)
    (ha : sender.alive = some a)
    (halive : bk.heap.aliveStore a = true)
    (hptr : sender.ptr ≠ 0)
    (hmd : (reg sender.interface).requests[opcode]? = some md)
    (hdtor : md.is_destructor = true)
    (hnonew : hasNewId md.signature = false)
    (hsig : check_for_signature md.signature args = true)
    (hmar : marshal_args reg bk.heap sender md args = MarshalResult.ok L)
    (hud : bk.heap.udata sender.ptr = some ud) :
    ∃ bk2,
      InnerBackend.send_request reg bk sender opcode args data cs
          = (bk2, SendResult.ok null_id) ∧
      bk2.heap.aliveStore a = false ∧
      bk2.heap.destroyedLog = bk.heap.destroyedLog ++ [(ud.data, sender)] ∧
      sender.ptr ∉ bk2.state.known_proxies ∧
      (∀ (opcode2 : Nat) (args2 : List Argument) (data2 : Option Nat)
          (cs2 : Option (Nat × Nat)),
        (InnerBackend.send_request reg bk2 sender opcode2 args2 data2 cs2).2
          = SendResult.invalidId) ∧
      InnerBackend.get_data bk2 sender = some (Except.error InvalidId.mk) ∧
      InnerBackend.info bk2 sender = Except.error InvalidId.mk := by
  have halive1 : aliveDefaultTrue bk.heap sender = true := by
    simp [aliveDefaultTrue, ha, halive]
  have hres : resolve_child_spec reg md (parentVersion bk sender) cs = Resolved.ok none := by
    simp [resolve_child_spec, hnonew]
  have hsend : InnerBackend.send_request reg bk sender opcode args data cs
      = send_request_epilogue bk sender md null_id := by
    simp [InnerBackend.send_request, halive1, hptr, hmd, hsig, hres, hmar]
  have hepi : send_request_epilogue bk sender md null_id
      = ((send_request_epilogue bk sender md null_id).1, SendResult.ok null_id) := by
    simp [send_request_epilogue, hdtor, ha, hud]
  refine ⟨(send_request_epilogue bk sender md null_id).1,
    hsend.trans hepi, ?_, ?_, ?_, ?_, ?_, ?_⟩
  · simp [send_request_epilogue, hdtor, ha, hud]
  · simp [send_request_epilogue, hdtor, ha, hud]
  · simp [send_request_epilogue, hdtor, ha, hud, List.mem_filter]
  · intro opcode2 args2 data2 cs2
    simp [InnerBackend.send_request, aliveDefaultTrue, ha,
      send_request_epilogue, hdtor, hud]
  · simp [InnerBackend.get_data, aliveDefaultFalse, ha,
      send_request_epilogue, hdtor, hud]
  · simp [InnerBackend.info, aliveDefaultTrue, ha,
      send_request_epilogue, hdtor, hud]

/-- Witness for C3: sending the empty-signature destructor `reqDestroy` on
the concrete managed id `objSender` of `bk0`. -/
theorem C3_destructor_send_witness :
    ∃ bk2,
      InnerBackend.send_request reg0 bk0 objSender 0 [] none none
          = (bk2, SendResult.ok null_id) ∧
      bk2.heap.aliveStore 0 = false ∧
      bk2.heap.destroyedLog = bk0.heap.destroyedLog ++ [(7, objSender)] ∧
      objSender.ptr ∉ bk2.state.known_proxies ∧
      (∀ (opcode2 : Nat) (args2 : List Argument) (data2 : Option Nat)
          (cs2 : Option (Nat × Nat)),
        (InnerBackend.send_request reg0 bk2 objSender opcode2 args2 data2 cs2).2
          = SendResult.invalidId) ∧
      InnerBackend.get_data bk2 objSender = some (Except.error InvalidId.mk) ∧
      InnerBackend.info bk2 objSender = Except.error InvalidId.mk :=
  C3_destructor_send reg0 bk0 objSender 0 [] none none 0 reqDestroy
    { alive := 0, data := 7, interface := 2 } [] rfl (by decide) (by decide)
    rfl rfl rfl (by decide) rfl rfl

/-- Claim C5: an object-creating message must be paired with object data or
the program aborts: (a) `send_request` of a constructor with no data destroys
the freshly created proxy and panics; (b) a dispatched event that created an
object whose handler returns no object data panics; (c) a handler returning
object data for an event that created no object panics. -/
theorem C5_constructor_pairing (reg : Registry) :
    (∀ (bk : InnerBackend) (sender : InnerObjectId) (opcode : Nat)
        (args : List Argument) (cs : Option (Nat × Nat)) (md : MessageDesc)
        (ci v : Nat) (L : List wl_argument),
      aliveDefaultTrue bk.heap sender = true → sender.ptr ≠ 0 →
      (reg sender.interface).requests[opcode]? = some md →
      check_for_signature md.signature args = true →
      resolve_child_spec reg md (parentVersion bk sender) cs = Resolved.ok (some (ci, v)) →
      marshal_args reg bk.heap sender md args = MarshalResult.ok L →
      bk.heap.nextPtr ≠ 0 →
      (InnerBackend.send_request reg bk sender opcode args none cs).2
          = SendResult.panicked PanicReason.missingObjectData ∧
      (InnerBackend.send_request reg bk sender opcode args none cs).1.heap.destroyedProxies
          = bk.heap.destroyedProxies ++ [bk.heap.nextPtr]) ∧
    (∀ (eventFn : Nat → Message → Option Nat) (bk : InnerBackend)
        (proxy opcode : Nat) (args : List wl_argument) (ud : ProxyUserData)
        (md : MessageDesc) (parsed : List Argument) (c : InnerObjectId) (h2 : WlHeap),
      bk.heap.udata proxy = some ud →
      (reg ud.interface).events[opcode]? = some md →
      parse_args reg md bk.heap md.signature md.arg_interfaces args [] none
          = ParseResult.ok parsed (some c) h2 →
      (∀ m, eventFn ud.data m = none) →
      (dispatcher_func reg eventFn bk proxy opcode args).2
          = DispResult.panicked PanicReason.callbackNoObjectData) ∧
    (∀ (eventFn : Nat → Message → Option Nat) (bk : InnerBackend)
        (proxy opcode : Nat) (args : List wl_argument) (ud : ProxyUserData)
        (md : MessageDesc) (parsed : List Argument) (h2 : WlHeap) (d : Nat),
      bk.heap.udata proxy = some ud →
      (reg ud.interface).events[opcode]? = some md →
      parse_args reg md bk.heap md.signature md.arg_interfaces args [] none
          = ParseResult.ok parsed none h2 →
      (∀ m, eventFn ud.data m = some d) →
      (dispatcher_func reg eventFn bk proxy opcode args).2
          = DispResult.panicked PanicReason.callbackSpuriousData) := by
  refine ⟨?_, ?_, ?_⟩
  · intro bk sender opcode args cs md ci v L halive hptr hmd hsig hres hmar hnp
    constructor
    · simp [InnerBackend.send_request, halive, hptr, hmd, hsig, hres, hmar, hnp]
    · simp [InnerBackend.send_request, halive, hptr, hmd, hsig, hres, hmar, hnp]
  · intro eventFn bk proxy opcode args ud md parsed c h2 hud hmd hparse hev
    simp [dispatcher_func, hud, hmd, hparse, hev]
  · intro eventFn bk proxy opcode args ud md parsed h2 d hud hmd hparse hev
    simp [dispatcher_func, hud, hmd, hparse, hev]

/-- Witness for C5: (a) sending the constructor `reqCreate` on `bk0` with no
data panics after destroying the fresh proxy (pointer 100); (b) dispatching
the object-creating event `evNew` with a handler returning no data panics;
(c) dispatching the plain event `evPlain` with a handler returning data
panics. -/
theorem C5_constructor_pairing_witness :
    (InnerBackend.send_request reg0 bk0 objSender 1 [Argument.NewId null_id] none none).2
        = SendResult.panicked PanicReason.missingObjectData ∧
    (InnerBackend.send_request reg0 bk0 objSender 1 [Argument.NewId null_id]
        none none).1.heap.destroyedProxies = [100] ∧
    (dispatcher_func reg0 (fun _ _ => none) bk0 5 0 [{ o := 33 }]).2
        = DispResult.panicked PanicReason.callbackNoObjectData ∧
    (dispatcher_func reg0 (fun _ _ => some 9) bk0 5 1 []).2
        = DispResult.panicked PanicReason.callbackSpuriousData := by
  have h := C5_constructor_pairing reg0
  have ha := h.1 bk0 objSender 1 [Argument.NewId null_id] none reqCreate 3 3
    [{ n := 0 }] (by decide) (by decide) rfl (by decide) (by decide) (by decide) (by decide)
  exact ⟨ha.1, ha.2,
    h.2.1 (fun _ _ => none) bk0 5 0 [{ o := 33 }] { alive := 0, data := 7, interface := 2 }
      evNew _ _ _ rfl rfl rfl (fun _ => rfl),
    h.2.2 (fun _ _ => some 9) bk0 5 1 [] { alive := 0, data := 7, interface := 2 }
      evPlain [] heap0 9 rfl rfl rfl (fun _ => rfl)⟩

end WaylandSysClient
